import Mathlib

/-!
# Verification of the HumanKlu artifact pipeline (HKP v1.1)

Shallow embedding of `src/humanklu/scripts/pipeline.py`. Python floats are
modelled as exact rationals (`ℚ`); Python `round(x, n)` is modelled as
`roundTo n`; dict fields accessed with `.get(key, default)` are modelled as
`Option` fields read with `getD`; Python string truthiness is modelled by
`pyTruthyStr`.
-/

namespace HumanKlu

/-- Python `round(x, p)` modelled over `ℚ`: round `x * 10^p` to the nearest
integer and scale back. (CPython rounds ties to even on the binary double;
the tie-breaking mode is irrelevant to every property proved below.) -/
def roundTo (p : ℕ) (x : ℚ) : ℚ := ((round (x * 10 ^ p) : ℤ) : ℚ) / 10 ^ p

/-- Truthiness of an optional Python string: `None` and `""` are falsy. -/
def pyTruthyStr : Option String → Bool
  | none => false
  | some s => !(s == "")

/-- Python `a or b` on optional strings: `b` when `a` is falsy, else `a`. -/
def pyOrStr (a b : Option String) : Option String :=
  if pyTruthyStr a then a else b

/-- `needle` starts `hay` (character lists). -/
def charsPre : List Char → List Char → Bool
  | [], _ => true
  | _ :: _, [] => false
  | a :: as, b :: bs => a == b && charsPre as bs

/-- `needle` occurs as a contiguous segment of `hay` (character lists). -/
def charsSub (needle : List Char) : List Char → Bool
  | [] => charsPre needle []
  | b :: bs => charsPre needle (b :: bs) || charsSub needle bs

/-- Python `needle in hay` substring containment on strings. -/
def strContains (hay needle : String) : Bool := charsSub needle.data hay.data

/-- `f"{n:03d}"`: decimal rendering of `n` left-padded with zeros to width 3. -/
def pad3 (n : ℕ) : String :=
  let s := toString n
  String.mk (List.replicate (3 - s.length) '0') ++ s

/-- Format a rational with 4 decimal places, modelling `f"{x:.4f}"`
(tie-breaking mode of the float formatting is irrelevant below). -/
def fmt4 (q : ℚ) : String :=
  let n : ℤ := round (q * 10000)
  let sign := if n < 0 then "-" else ""
  let m := n.natAbs
  let ip := toString (m / 10000)
  let fp := toString (m % 10000)
  sign ++ ip ++ "." ++ String.mk (List.replicate (4 - fp.length) '0') ++ fp

/-- One claim's `source` dict (§3 ClaimRecord source descriptor). A present
dict with absent keys is modelled by `none` fields. -/
structure Source where
  type : Option String := none
  uri : Option String := none
  title : Option String := none
  retrieved_at : Option String := none
  excerpt : Option String := none
deriving Repr, DecidableEq

/-- A claim record as consumed by the pipeline: a JSON dict whose keys may be
absent (`none`). `source = none` covers both a missing and a `None`-valued
`source` key (the code immediately replaces a falsy source by `{}` or a
default, and an empty dict yields `uri = None` just like `none` does). -/
structure ClaimRec where
  claim_id : Option String := none
  text : Option String := none
  evidence_type : Option String := none
  source : Option Source := none
  source_url : Option String := none
  confidence : Option ℚ := none
  claim_flags : List String := []
  notes : Option String := none
deriving Repr, DecidableEq

/-- `c.get("source") or {}` followed by `.get("uri")`. -/
def claimSourceUri (c : ClaimRec) : Option String :=
  match c.source with
  | none => none
  | some s => s.uri

/-- One rubric dimension: `{score, rationale}`. -/
structure Dim where
  score : ℚ
  rationale : String := ""
deriving Repr, DecidableEq

/-- The five-dimension score set (§3 DimensionScoreSet). -/
structure Dims where
  EVID : Dim
  MECH : Dim
  INC : Dim
  RISK : Dim
  SPEC : Dim
deriving Repr, DecidableEq

/-- `ABSENCE_PHRASES` (pipeline.py lines 80-85), in source order. -/
def ABSENCE_PHRASES : List String :=
  ["no third-party audit", "no audit", "no evidence found", "no public audit"]

/-- `compute_inferred_ratio` (pipeline.py lines 91-97): fraction of claims
with `evidence_type == "INFERRED"` (missing field defaults to INFERRED),
rounded to 4 decimals; `1.0` on the empty list. -/
def compute_inferred_ratio (claims : List ClaimRec) : ℚ :=
  if claims = [] then 1
  else
    let inferred := (claims.filter
      (fun c => (c.evidence_type.getD "INFERRED") == "INFERRED")).length
    roundTo 4 ((inferred : ℚ) / (claims.length : ℚ))

/-- `apply_evid_ceiling` (pipeline.py lines 103-114): two-tier cap on the raw
EVID score driven by the inferred ratio; returns `(evid_effective, note)`. -/
def apply_evid_ceiling (evid_raw inferred_ratio : ℚ) : ℚ × Option String :=
  if inferred_ratio > 0.75 then
    (min evid_raw 6.5,
     some ("EVID capped at 6.5 (inferred_ratio=" ++ fmt4 inferred_ratio ++ " > 0.75)"))
  else if inferred_ratio > 0.60 then
    (min evid_raw 7.2,
     some ("EVID capped at 7.2 (inferred_ratio=" ++ fmt4 inferred_ratio ++ " > 0.60)"))
  else (evid_raw, none)

/-- An `ABSENCE_ASSERTION` flag dict (pipeline.py lines 132-137). -/
structure AbsenceFlag where
  claim_id : String
  flag_type : String
  matched_phrase : String
  detail : String
deriving Repr, DecidableEq

/-- `detect_absence_assertions` (pipeline.py lines 120-138): flags every
claim whose lower-cased text contains an absence phrase (first phrase in
listed order is reported) and whose source URI is falsy. -/
def detect_absence_assertions : List ClaimRec → List AbsenceFlag
  | [] => []
  | c :: rest =>
    let text_lower := (c.text.getD "").toLower
    let matched := ABSENCE_PHRASES.find? (fun p => strContains text_lower p)
    let tail := detect_absence_assertions rest
    match matched with
    | none => tail
    | some m =>
      let uri := pyOrStr (claimSourceUri c) c.source_url
      if pyTruthyStr uri then tail
      else
        { claim_id := c.claim_id.getD "?"
          flag_type := "ABSENCE_ASSERTION"
          matched_phrase := m
          detail := "Claim asserts absence of evidence but provides no source URI." } :: tail

/-- `compute_hci` (pipeline.py lines 144-153): mean of effective EVID and the
four other dimension scores, rounded to 2 decimals. -/
def compute_hci (dims : Dims) (evid_effective : ℚ) : ℚ :=
  roundTo 2 ((evid_effective + dims.MECH.score + dims.INC.score
    + dims.RISK.score + dims.SPEC.score) / 5)

/-- `determine_certification_level` (pipeline.py lines 159-209): ordered gate
cascade; the extra-fields dict is modelled as an association list. -/
def determine_certification_level (dims : Dims) (evid_effective hci inferred_ratio : ℚ)
    (hallucination_flags : List String) (has_absence_assertions : Bool) :
    String × List (String × Bool) :=
  let spec := dims.SPEC.score
  if hallucination_flags ≠ [] ∨ evid_effective < 6.0 ∨ hci < 5.5 then
    ("HK-REJECTED", [])
  else if hci ≥ 8.5 ∧ evid_effective ≥ 8.2 ∧ inferred_ratio ≤ 0.40 ∧ spec ≥ 7.5
      ∧ has_absence_assertions = false ∧ hallucination_flags = [] then
    ("HK-INSTITUTIONAL", [("institutional_requires_two_reviews", true)])
  else if hci ≥ 7.8 ∧ evid_effective ≥ 7.6 ∧ inferred_ratio ≤ 0.50 ∧ spec ≥ 7.0
      ∧ has_absence_assertions = false then
    ("HK-PRO", [("pro_requires_second_review", true)])
  else if hci ≥ 7.3 ∧ evid_effective ≥ 7.2 ∧ inferred_ratio ≤ 0.60 ∧ spec ≥ 6.5
      ∧ has_absence_assertions = false then
    ("HK-VERIFIED", [])
  else if hci ≥ 6.0 ∧ evid_effective ≥ 6.0 then
    ("HK-REVIEWED", [])
  else
    ("HK-REJECTED", [])

/-- Position of a tier in the strictness ordering
HK-INSTITUTIONAL > HK-PRO > HK-VERIFIED > HK-REVIEWED > HK-REJECTED (§3). -/
def tierRank : String → ℕ
  | "HK-INSTITUTIONAL" => 4
  | "HK-PRO" => 3
  | "HK-VERIFIED" => 2
  | "HK-REVIEWED" => 1
  | _ => 0

/-- The classifier as described by the spec's simplification question: the
HK-REVIEWED gate's `evid_effective >= 6.0` condition deleted, everything
else identical to `determine_certification_level`. -/
def determine_certification_level_simplified (dims : Dims)
    (evid_effective hci inferred_ratio : ℚ)
    (hallucination_flags : List String) (has_absence_assertions : Bool) :
    String × List (String × Bool) :=
  let spec := dims.SPEC.score
  if hallucination_flags ≠ [] ∨ evid_effective < 6.0 ∨ hci < 5.5 then
    ("HK-REJECTED", [])
  else if hci ≥ 8.5 ∧ evid_effective ≥ 8.2 ∧ inferred_ratio ≤ 0.40 ∧ spec ≥ 7.5
      ∧ has_absence_assertions = false ∧ hallucination_flags = [] then
    ("HK-INSTITUTIONAL", [("institutional_requires_two_reviews", true)])
  else if hci ≥ 7.8 ∧ evid_effective ≥ 7.6 ∧ inferred_ratio ≤ 0.50 ∧ spec ≥ 7.0
      ∧ has_absence_assertions = false then
    ("HK-PRO", [("pro_requires_second_review", true)])
  else if hci ≥ 7.3 ∧ evid_effective ≥ 7.2 ∧ inferred_ratio ≤ 0.60 ∧ spec ≥ 6.5
      ∧ has_absence_assertions = false then
    ("HK-VERIFIED", [])
  else if hci ≥ 6.0 then
    ("HK-REVIEWED", [])
  else
    ("HK-REJECTED", [])

/-- The normalizer's claim-id assignment (run_pipeline, pipeline.py lines
613-615): the in-place loop `claims[k]["claim_id"] = f"CLM-{k:03d}"` for
claims lacking an id is modelled as a list transformation; `i` is the
1-based position of the head. -/
def assign_claim_ids : ℕ → List ClaimRec → List ClaimRec
  | _, [] => []
  | i, c :: rest =>
    (if c.claim_id = none then { c with claim_id := some ("CLM-" ++ pad3 i) } else c)
      :: assign_claim_ids (i + 1) rest

/-- One entry of evidence.json (build_evidence_json, pipeline.py 257-265). -/
structure EvidenceEntry where
  claim_id : String
  claim_text : String
  evidence_type : String
  source : Source
  confidence : ℚ
  claim_flags : List String
  notes : String
deriving Repr, DecidableEq

/-- The evidence.json artifact (pipeline.py 266-272). -/
structure EvidenceJson where
  report_id : String
  generated_at : String
  pipeline_version : String
  inferred_ratio : ℚ
  entries : List EvidenceEntry
deriving Repr, DecidableEq

/-- The entry loop of `build_evidence_json` (pipeline.py 241-265); `i` is the
1-based `enumerate` index of the head claim. `list(claim.get("claim_flags",
[]) or [])` copies the claim's flag list before the derived flag is appended,
so the entry's flags are `c.claim_flags ++ …` and `c` itself is unchanged. -/
def build_evidence_entries (absence_flag_ids : List String) (now : String) :
    ℕ → List ClaimRec → List EvidenceEntry
  | _, [] => []
  | i, c :: rest =>
    let cid := c.claim_id.getD ("CLM-" ++ pad3 i)
    let claim_flags := c.claim_flags
      ++ (if cid ∈ absence_flag_ids then ["ABSENCE_ASSERTION"] else [])
    let src := c.source.getD
      { type := some "MODEL_REASONING"
        uri := none
        title := some "AI-generated inference"
        retrieved_at := some now
        excerpt := some ((c.text.getD "").take 120) }
    { claim_id := cid
      claim_text := c.text.getD ""
      evidence_type := c.evidence_type.getD "INFERRED"
      source := src
      confidence := c.confidence.getD 0.5
      claim_flags := claim_flags
      notes := c.notes.getD "" } :: build_evidence_entries absence_flag_ids now (i + 1) rest

/-- `build_evidence_json` (pipeline.py 233-272), with explicit state passing
for the claims list: the Python function only reads the claim dicts (its one
append targets the `list(...)` copy of `claim_flags`), so the post-call state
of the claims list is returned unchanged as the second component. -/
def build_evidence_json (report_id : String) (claims : List ClaimRec)
    (absence_flag_ids : List String) (inferred_ratio : ℚ) (now : String) :
    EvidenceJson × List ClaimRec :=
  ({ report_id := report_id
     generated_at := now
     pipeline_version := "HKP-1.1"
     inferred_ratio := inferred_ratio
     entries := build_evidence_entries absence_flag_ids now 1 claims }, claims)

/-- A ledger.jsonl entry (build_ledger_entry, pipeline.py 561-586). -/
structure LedgerEntry where
  entry_id : String
  timestamp : String
  report_id : String
  audit_id : String
  event_type : String
  certification_level : String
  hci : ℚ
  evid_effective : ℚ
  inferred_ratio : ℚ
  author_model : String
  human_reviewer : Option String
  notes : String
  prev_entry_id : Option String
deriving Repr, DecidableEq

/-- `build_ledger_entry` (pipeline.py 561-586). The random/time-based
`make_ledger_id()` result is hoisted into the `entry_id` parameter. -/
def build_ledger_entry (entry_id report_id audit_id cert_level : String)
    (hci evid_effective inferred_ratio : ℚ) (author_model : String)
    (prev_entry_id : Option String) (now : String) : LedgerEntry :=
  { entry_id := entry_id
    timestamp := now
    report_id := report_id
    audit_id := audit_id
    event_type := "CREATED"
    certification_level := cert_level
    hci := hci
    evid_effective := evid_effective
    inferred_ratio := inferred_ratio
    author_model := author_model
    human_reviewer := none
    notes := "Initial pipeline run."
    prev_entry_id := prev_entry_id }

/-- `ledger_path.read_text().strip().splitlines()` (pipeline.py 695): after
`strip()` the text has no boundary newlines, so `splitlines()` is splitting on
the newline character, and the stripped-empty string yields no lines. -/
def ledgerLines (content : String) : List String :=
  if content.trim = "" then [] else (content.trim).splitOn "\n"

/-- The ledger tail read of `run_pipeline` (pipeline.py 692-700). The file is
`none` when ledger.jsonl does not exist, otherwise its text. `parseEntryId`
models `json.loads(line)["entry_id"]` with every raised exception (malformed
JSON, missing key, non-string value) collapsed to `none`, which the
`try/except: pass` turns into a `None` back-reference. -/
def readPrevEntryId (parseEntryId : String → Option String)
    (file : Option String) : Option String :=
  match file with
  | none => none
  | some content =>
    match (ledgerLines content).getLast? with
    | none => none
    | some last => parseEntryId last

/-! ## Helper lemmas -/

theorem round_mono_q {x y : ℚ} (h : x ≤ y) : round x ≤ round y := by
  rw [round_eq, round_eq]
  exact Int.floor_le_floor (by linarith)

theorem roundTo_nonneg {p : ℕ} {x : ℚ} (h : 0 ≤ x) : 0 ≤ roundTo p x := by
  unfold roundTo
  apply div_nonneg _ (by positivity)
  have h0 : round ((0:ℚ)) ≤ round (x * 10 ^ p) :=
    round_mono_q (by positivity)
  rw [round_zero] at h0
  exact_mod_cast h0

theorem roundTo_le_one {p : ℕ} {x : ℚ} (h : x ≤ 1) : roundTo p x ≤ 1 := by
  unfold roundTo
  rw [div_le_one (by positivity)]
  have hpow : (0:ℚ) < 10 ^ p := by positivity
  have h2 : x * 10 ^ p ≤ ((10 ^ p : ℤ) : ℚ) := by
    push_cast
    nlinarith
  have h3 := round_mono_q h2
  rw [round_intCast] at h3
  have : ((round (x * 10 ^ p) : ℤ) : ℚ) ≤ ((10 ^ p : ℤ) : ℚ) := by exact_mod_cast h3
  calc ((round (x * 10 ^ p) : ℤ) : ℚ) ≤ ((10 ^ p : ℤ) : ℚ) := this
    _ = 10 ^ p := by push_cast; ring

theorem pyTruthyStr_pyOrStr (a b : Option String) :
    pyTruthyStr (pyOrStr a b) = (pyTruthyStr a || pyTruthyStr b) := by
  unfold pyOrStr
  split_ifs with h <;> simp_all

/-! ## C1 -/

/-- C1: whenever the hallucination-flag list is non-empty, or effective EVID
is below 6.0, or the composite index is below 5.5, the classifier assigns
HK-REJECTED with an empty extra-fields dict, regardless of every other
score. -/
theorem rejection_gate_dominates (dims : Dims) (evid_effective hci inferred_ratio : ℚ)
    (hallucination_flags : List String) (has_absence : Bool)
    (h : hallucination_flags ≠ [] ∨ evid_effective < 6.0 ∨ hci < 5.5) :
    determine_certification_level dims evid_effective hci inferred_ratio
      hallucination_flags has_absence = ("HK-REJECTED", []) := by
  unfold determine_certification_level
  rw [if_pos h]

/-- C1 witness: a non-empty hallucination-flag list forces HK-REJECTED even
with all scores at 10. -/
theorem rejection_gate_dominates_witness :
    (["model fabricated citation"] ≠ ([] : List String)) ∧
    determine_certification_level ⟨⟨10, ""⟩, ⟨10, ""⟩, ⟨10, ""⟩, ⟨10, ""⟩, ⟨10, ""⟩⟩
      10 10 0 ["model fabricated citation"] false = ("HK-REJECTED", []) :=
  ⟨by simp,
   rejection_gate_dominates _ _ _ _ _ _ (Or.inl (by simp))⟩

/-! ## C2 -/

/-- C2: the ceiling adjuster returns `min raw 6.5` when the ratio exceeds
0.75, `min raw 7.2` when the ratio is in (0.60, 0.75], and `raw` otherwise;
hence effective EVID never exceeds raw EVID, and equals it whenever the
ratio is at most 0.60. -/
theorem evid_ceiling_spec (evid_raw inferred_ratio : ℚ) :
    (inferred_ratio > 0.75 →
      (apply_evid_ceiling evid_raw inferred_ratio).1 = min evid_raw 6.5)
    ∧ (0.60 < inferred_ratio ∧ inferred_ratio ≤ 0.75 →
      (apply_evid_ceiling evid_raw inferred_ratio).1 = min evid_raw 7.2)
    ∧ (inferred_ratio ≤ 0.60 →
      (apply_evid_ceiling evid_raw inferred_ratio).1 = evid_raw)
    ∧ (apply_evid_ceiling evid_raw inferred_ratio).1 ≤ evid_raw := by
  unfold apply_evid_ceiling
  split_ifs with h1 h2
  · exact ⟨fun _ => rfl, fun hc => absurd h1 (by linarith [hc.2]),
      fun hc => absurd h1 (by linarith), min_le_left _ _⟩
  · exact ⟨fun hc => absurd hc h1, fun _ => rfl,
      fun hc => absurd h2 (by linarith), min_le_left _ _⟩
  · push_neg at h1 h2
    exact ⟨fun hc => absurd hc (by linarith), fun hc => absurd hc.1 (by linarith),
      fun _ => rfl, le_refl _⟩

/-- C2 witness: at raw EVID 9 and ratio 0.8 the high cap fires
(`min 9 6.5 = 6.5`); at raw EVID 9 and ratio 0.5 effective equals raw. -/
theorem evid_ceiling_spec_witness :
    ((4:ℚ)/5 > 0.75 ∧ (apply_evid_ceiling 9 (4/5)).1 = min 9 6.5)
    ∧ ((1:ℚ)/2 ≤ 0.60 ∧ (apply_evid_ceiling 9 (1/2)).1 = 9) :=
  ⟨⟨by norm_num, (evid_ceiling_spec 9 (4/5)).1 (by norm_num)⟩,
   ⟨by norm_num, (evid_ceiling_spec 9 (1/2)).2.2.1 (by norm_num)⟩⟩

/-! ## C3 -/

/-- C3: the composite index is the unweighted mean of effective EVID and the
MECH/INC/RISK/SPEC scores rounded to 2 decimals, and it is independent of
the raw EVID dimension: two dimension sets that agree outside EVID yield the
same HCI for the same effective EVID. -/
theorem hci_from_effective_evid (d d' : Dims) (evid_effective : ℚ)
    (hM : d.MECH = d'.MECH) (hI : d.INC = d'.INC)
    (hR : d.RISK = d'.RISK) (hS : d.SPEC = d'.SPEC) :
    compute_hci d evid_effective
      = roundTo 2 ((evid_effective + d.MECH.score + d.INC.score
          + d.RISK.score + d.SPEC.score) / 5)
    ∧ compute_hci d evid_effective = compute_hci d' evid_effective := by
  refine ⟨rfl, ?_⟩
  unfold compute_hci
  rw [hM, hI, hR, hS]

/-- C3 witness: raw EVID 0 versus raw EVID 10 with the same effective EVID
give the same HCI. -/
theorem hci_from_effective_evid_witness :
    compute_hci ⟨⟨0, ""⟩, ⟨5, ""⟩, ⟨5, ""⟩, ⟨5, ""⟩, ⟨5, ""⟩⟩ 6.5
      = compute_hci ⟨⟨10, ""⟩, ⟨5, ""⟩, ⟨5, ""⟩, ⟨5, ""⟩, ⟨5, ""⟩⟩ 6.5 :=
  (hci_from_effective_evid ⟨⟨0, ""⟩, ⟨5, ""⟩, ⟨5, ""⟩, ⟨5, ""⟩, ⟨5, ""⟩⟩
    ⟨⟨10, ""⟩, ⟨5, ""⟩, ⟨5, ""⟩, ⟨5, ""⟩, ⟨5, ""⟩⟩ 6.5 rfl rfl rfl rfl).2

/-! ## C5 -/

/-- C5 counterexample: at raw EVID 5 and ratio 0.8 the ratio crosses the
0.75 threshold and raw is below the applicable cap 6.5; effective equals raw
as the claim says, but the adjuster still produces a ceiling note, refuting
"no note is produced". -/
theorem ceiling_note_below_cap_counterexample :
    ((4:ℚ)/5 > 0.60) ∧ ((5:ℚ) < 6.5)
    ∧ (apply_evid_ceiling 5 (4/5)).1 = 5
    ∧ (apply_evid_ceiling 5 (4/5)).2 ≠ none := by
  refine ⟨by norm_num, by norm_num, by norm_num [apply_evid_ceiling], ?_⟩
  norm_num [apply_evid_ceiling]
  simp

/-- C5 amended: when the ratio crosses a cap threshold but raw is already
below the applicable cap, effective equals raw, yet a ceiling note is still
produced (the note does not depend on whether the cap lowered the score). -/
theorem ceiling_below_cap_amended (evid_raw inferred_ratio : ℚ)
    (h : inferred_ratio > 0.60)
    (hcap : evid_raw < (if inferred_ratio > 0.75 then (6.5:ℚ) else 7.2)) :
    (apply_evid_ceiling evid_raw inferred_ratio).1 = evid_raw
    ∧ (apply_evid_ceiling evid_raw inferred_ratio).2 ≠ none := by
  unfold apply_evid_ceiling
  split_ifs with h1
  · rw [if_pos h1] at hcap
    exact ⟨min_eq_left hcap.le, by simp⟩
  · rw [if_neg h1] at hcap
    exact ⟨min_eq_left hcap.le, by simp⟩

/-- C5 amended witness: raw 5, ratio 0.8. -/
theorem ceiling_below_cap_amended_witness :
    ((4:ℚ)/5 > 0.60) ∧ ((5:ℚ) < (if (4:ℚ)/5 > 0.75 then (6.5:ℚ) else 7.2))
    ∧ (apply_evid_ceiling 5 (4/5)).1 = 5
    ∧ (apply_evid_ceiling 5 (4/5)).2 ≠ none := by
  have h1 : ((4:ℚ)/5 > 0.60) := by norm_num
  have h2 : ((5:ℚ) < (if (4:ℚ)/5 > 0.75 then (6.5:ℚ) else 7.2)) := by
    rw [if_pos (by norm_num : (4:ℚ)/5 > 0.75)]; norm_num
  obtain ⟨ha, hb⟩ := ceiling_below_cap_amended 5 (4/5) h1 h2
  exact ⟨h1, h2, ha, hb⟩

/-! ## C6 -/

/-- Spec-side: the claim's lower-cased text contains at least one of the
four absence phrases. -/
def textMatchesAbsencePhrase (c : ClaimRec) : Bool :=
  ABSENCE_PHRASES.any (fun p => strContains (c.text.getD "").toLower p)

/-- Spec-side: one of the two URI access paths (nested source-object URI,
top-level legacy `source_url`) is present and truthy. -/
def hasTruthySourceUri (c : ClaimRec) : Bool :=
  pyTruthyStr (claimSourceUri c) || pyTruthyStr c.source_url

/-- Spec-side: the first absence phrase, in listed order, contained in the
claim's lower-cased text. -/
def firstMatchedPhrase (c : ClaimRec) : Option String :=
  ABSENCE_PHRASES.find? (fun p => strContains (c.text.getD "").toLower p)

theorem any_eq_find?_isSome {α} (p : α → Bool) : ∀ l : List α, l.any p = (l.find? p).isSome
  | [] => rfl
  | a :: l => by
    rw [List.any_cons]
    cases hpa : p a <;> simp [hpa, List.find?_cons, any_eq_find?_isSome p l]

theorem textMatches_eq_isSome (c : ClaimRec) :
    textMatchesAbsencePhrase c = (firstMatchedPhrase c).isSome :=
  any_eq_find?_isSome _ _

/-- C6: the detector emits a flag for a claim exactly when its lower-cased
text contains one of the four absence phrases and neither URI access path is
present and truthy; the reported matched phrase is the first phrase in
listed order, and a claim with a truthy source URI is never flagged. -/
theorem absence_detector_spec (claims : List ClaimRec) :
    detect_absence_assertions claims = claims.filterMap (fun c =>
      if textMatchesAbsencePhrase c && !hasTruthySourceUri c then
        some { claim_id := c.claim_id.getD "?"
               flag_type := "ABSENCE_ASSERTION"
               matched_phrase := (firstMatchedPhrase c).getD ""
               detail := "Claim asserts absence of evidence but provides no source URI." }
      else none) := by
  induction claims with
  | nil => rfl
  | cons c rest ih =>
    rw [List.filterMap_cons]
    simp only [detect_absence_assertions]
    rcases hm : ABSENCE_PHRASES.find? (fun p => strContains (c.text.getD "").toLower p) with _ | m
    · have ht : textMatchesAbsencePhrase c = false := by
        rw [textMatches_eq_isSome]; unfold firstMatchedPhrase; rw [hm]; rfl
      simp [ht, ih]
    · have ht : textMatchesAbsencePhrase c = true := by
        rw [textMatches_eq_isSome]; unfold firstMatchedPhrase; rw [hm]; rfl
      have hfm : firstMatchedPhrase c = some m := hm
      by_cases hu : pyTruthyStr (pyOrStr (claimSourceUri c) c.source_url) = true
      · have hu' : hasTruthySourceUri c = true := by
          unfold hasTruthySourceUri; rw [← pyTruthyStr_pyOrStr]; exact hu
        simp [hu, hu', ht, ih]
      · have hu' : hasTruthySourceUri c = false := by
          unfold hasTruthySourceUri; rw [← pyTruthyStr_pyOrStr]; simpa using hu
        simp [hu, hu', ht, ih, hfm]

/-! ## C7 -/

/-- C7: the inferred ratio is the INFERRED-claim count (missing
evidence-type counts as INFERRED) over the total count rounded to 4
decimals, lies in [0, 1], and is exactly 1 on the empty claim list. -/
theorem inferred_ratio_spec (claims : List ClaimRec) :
    (claims = [] → compute_inferred_ratio claims = 1)
    ∧ (claims ≠ [] → compute_inferred_ratio claims
        = roundTo 4 (((claims.filter
            (fun c => (c.evidence_type.getD "INFERRED") == "INFERRED")).length : ℚ)
          / (claims.length : ℚ)))
    ∧ 0 ≤ compute_inferred_ratio claims ∧ compute_inferred_ratio claims ≤ 1 := by
  unfold compute_inferred_ratio
  by_cases h : claims = []
  · subst h; norm_num
  · rw [if_neg h]
    have hl : (0:ℚ) < (claims.length : ℚ) := by
      exact_mod_cast List.length_pos.mpr h
    refine ⟨fun hc => absurd hc h, fun _ => rfl, ?_, ?_⟩
    · exact roundTo_nonneg (div_nonneg (by positivity) hl.le)
    · apply roundTo_le_one
      rw [div_le_one hl]
      exact_mod_cast List.length_filter_le _ _

/-- C7 witness: the empty list gives ratio 1; a two-claim list with one
VERIFIED claim and one claim lacking the evidence-type field gives
`roundTo 4 (1/2)`, which lies in [0, 1]. -/
theorem inferred_ratio_spec_witness :
    compute_inferred_ratio [] = 1
    ∧ compute_inferred_ratio [{ evidence_type := some "VERIFIED" }, {}]
        = roundTo 4 ((1 : ℚ) / 2)
    ∧ 0 ≤ compute_inferred_ratio [{ evidence_type := some "VERIFIED" }, {}]
    ∧ compute_inferred_ratio [{ evidence_type := some "VERIFIED" }, {}] ≤ 1 := by
  refine ⟨(inferred_ratio_spec []).1 rfl, ?_, (inferred_ratio_spec _).2.2.1,
    (inferred_ratio_spec _).2.2.2⟩
  have h := (inferred_ratio_spec [{ evidence_type := some "VERIFIED" }, {}]).2.1 (by simp)
  rw [h]
  have hb : ("VERIFIED" == "INFERRED") = false := by decide
  norm_num [List.filter, hb]

/-! ## C8 -/

/-- C8: the appended ledger entry's back-reference is exactly the value read
from the last line of the ledger file, and that value is `none` precisely
when the file does not exist, has no (non-whitespace) lines, or its last
line does not parse to an entry id. -/
theorem ledger_prev_ref_spec (parseEntryId : String → Option String) (file : Option String)
    (eid rid aid cl am now : String) (hci ee ir : ℚ) :
    (build_ledger_entry eid rid aid cl hci ee ir am
        (readPrevEntryId parseEntryId file) now).prev_entry_id
      = readPrevEntryId parseEntryId file
    ∧ (readPrevEntryId parseEntryId file = none ↔
        file = none ∨ ∃ c, file = some c ∧
          ((ledgerLines c).getLast? = none
            ∨ ∃ last, (ledgerLines c).getLast? = some last ∧ parseEntryId last = none)) := by
  refine ⟨rfl, ?_⟩
  cases file with
  | none => simp [readPrevEntryId]
  | some c =>
    simp only [readPrevEntryId]
    cases hl : (ledgerLines c).getLast? with
    | none =>
      simp [hl]
      simpa using hl
    | some last =>
      cases hp : parseEntryId last with
      | none => simp [hl, hp]
      | some v =>
        simp [hl, hp]
        intro hnil
        rw [hnil] at hl
        simp at hl

/-! ## C4 -/

theorem tierRank_le_four (t : String) : tierRank t ≤ 4 := by
  unfold tierRank
  split <;> omega

theorem tierRank_det (d : Dims) (e hci ratio : ℚ) (hf : List String) (ab : Bool) :
    tierRank (determine_certification_level d e hci ratio hf ab).1 =
      if hf ≠ [] ∨ e < 6.0 ∨ hci < 5.5 then 0
      else if hci ≥ 8.5 ∧ e ≥ 8.2 ∧ ratio ≤ 0.40 ∧ d.SPEC.score ≥ 7.5 ∧ ab = false ∧ hf = [] then 4
      else if hci ≥ 7.8 ∧ e ≥ 7.6 ∧ ratio ≤ 0.50 ∧ d.SPEC.score ≥ 7.0 ∧ ab = false then 3
      else if hci ≥ 7.3 ∧ e ≥ 7.2 ∧ ratio ≤ 0.60 ∧ d.SPEC.score ≥ 6.5 ∧ ab = false then 2
      else if hci ≥ 6.0 ∧ e ≥ 6.0 then 1
      else 0 := by
  unfold determine_certification_level
  by_cases g1 : hf ≠ [] ∨ e < 6.0 ∨ hci < 5.5
  · rw [if_pos g1, if_pos g1]; rfl
  · rw [if_neg g1, if_neg g1]
    by_cases g2 : hci ≥ 8.5 ∧ e ≥ 8.2 ∧ ratio ≤ 0.40 ∧ d.SPEC.score ≥ 7.5 ∧ ab = false ∧ hf = []
    · rw [if_pos g2, if_pos g2]; rfl
    · rw [if_neg g2, if_neg g2]
      by_cases g3 : hci ≥ 7.8 ∧ e ≥ 7.6 ∧ ratio ≤ 0.50 ∧ d.SPEC.score ≥ 7.0 ∧ ab = false
      · rw [if_pos g3, if_pos g3]; rfl
      · rw [if_neg g3, if_neg g3]
        by_cases g4 : hci ≥ 7.3 ∧ e ≥ 7.2 ∧ ratio ≤ 0.60 ∧ d.SPEC.score ≥ 6.5 ∧ ab = false
        · rw [if_pos g4, if_pos g4]; rfl
        · rw [if_neg g4, if_neg g4]
          by_cases g5 : hci ≥ 6.0 ∧ e ≥ 6.0
          · rw [if_pos g5, if_pos g5]; rfl
          · rw [if_neg g5, if_neg g5]; rfl

theorem cert_rank_ge_one_iff (d : Dims) (e hci ratio : ℚ) (hf : List String) (ab : Bool) :
    1 ≤ tierRank (determine_certification_level d e hci ratio hf ab).1
      ↔ (hf = [] ∧ 6.0 ≤ e ∧ 6.0 ≤ hci) := by
  rw [tierRank_det]
  split_ifs with g1 g2 g3 g4 g5
  · exact iff_of_false (by norm_num) (by
      rintro ⟨h1, h2, h3⟩
      rcases g1 with h | h | h
      · exact h h1
      · linarith
      · linarith)
  · push_neg at g1
    exact iff_of_true (by norm_num) ⟨g1.1, g1.2.1, by linarith [g2.1]⟩
  · push_neg at g1
    exact iff_of_true (by norm_num) ⟨g1.1, g1.2.1, by linarith [g3.1]⟩
  · push_neg at g1
    exact iff_of_true (by norm_num) ⟨g1.1, g1.2.1, by linarith [g4.1]⟩
  · push_neg at g1
    exact iff_of_true (by norm_num) ⟨g1.1, g1.2.1, g5.1⟩
  · exact iff_of_false (by norm_num) (by
      rintro ⟨h1, h2, h3⟩
      exact g5 ⟨h3, h2⟩)

theorem cert_rank_ge_two_iff (d : Dims) (e hci ratio : ℚ) (hf : List String) (ab : Bool) :
    2 ≤ tierRank (determine_certification_level d e hci ratio hf ab).1
      ↔ (hf = [] ∧ ab = false ∧ 7.3 ≤ hci ∧ 7.2 ≤ e ∧ ratio ≤ 0.60 ∧ 6.5 ≤ d.SPEC.score) := by
  rw [tierRank_det]
  split_ifs with g1 g2 g3 g4 g5
  · exact iff_of_false (by norm_num) (by
      rintro ⟨h1, h2, h3, h4, h5, h6⟩
      rcases g1 with h | h | h
      · exact h h1
      · linarith
      · linarith)
  · obtain ⟨a, b, c', d', e', f'⟩ := g2
    exact iff_of_true (by norm_num)
      ⟨f', e', by linarith, by linarith, by linarith, by linarith⟩
  · push_neg at g1
    obtain ⟨a, b, c', d', e'⟩ := g3
    exact iff_of_true (by norm_num)
      ⟨g1.1, e', by linarith, by linarith, by linarith, by linarith⟩
  · push_neg at g1
    obtain ⟨a, b, c', d', e'⟩ := g4
    exact iff_of_true (by norm_num) ⟨g1.1, e', a, b, c', d'⟩
  · exact iff_of_false (by norm_num) (by
      rintro ⟨h1, h2, h3, h4, h5, h6⟩
      exact g4 ⟨h3, h4, h5, h6, h2⟩)
  · exact iff_of_false (by norm_num) (by
      rintro ⟨h1, h2, h3, h4, h5, h6⟩
      exact g4 ⟨h3, h4, h5, h6, h2⟩)

theorem cert_rank_ge_three_iff (d : Dims) (e hci ratio : ℚ) (hf : List String) (ab : Bool) :
    3 ≤ tierRank (determine_certification_level d e hci ratio hf ab).1
      ↔ (hf = [] ∧ ab = false ∧ 7.8 ≤ hci ∧ 7.6 ≤ e ∧ ratio ≤ 0.50 ∧ 7.0 ≤ d.SPEC.score) := by
  rw [tierRank_det]
  split_ifs with g1 g2 g3 g4 g5
  · exact iff_of_false (by norm_num) (by
      rintro ⟨h1, h2, h3, h4, h5, h6⟩
      rcases g1 with h | h | h
      · exact h h1
      · linarith
      · linarith)
  · obtain ⟨a, b, c', d', e', f'⟩ := g2
    exact iff_of_true (by norm_num)
      ⟨f', e', by linarith, by linarith, by linarith, by linarith⟩
  · push_neg at g1
    obtain ⟨a, b, c', d', e'⟩ := g3
    exact iff_of_true (by norm_num) ⟨g1.1, e', a, b, c', d'⟩
  · exact iff_of_false (by norm_num) (by
      rintro ⟨h1, h2, h3, h4, h5, h6⟩
      exact g3 ⟨h3, h4, h5, h6, h2⟩)
  · exact iff_of_false (by norm_num) (by
      rintro ⟨h1, h2, h3, h4, h5, h6⟩
      exact g3 ⟨h3, h4, h5, h6, h2⟩)
  · exact iff_of_false (by norm_num) (by
      rintro ⟨h1, h2, h3, h4, h5, h6⟩
      exact g3 ⟨h3, h4, h5, h6, h2⟩)

theorem cert_rank_ge_four_iff (d : Dims) (e hci ratio : ℚ) (hf : List String) (ab : Bool) :
    4 ≤ tierRank (determine_certification_level d e hci ratio hf ab).1
      ↔ (hf = [] ∧ ab = false ∧ 8.5 ≤ hci ∧ 8.2 ≤ e ∧ ratio ≤ 0.40 ∧ 7.5 ≤ d.SPEC.score) := by
  rw [tierRank_det]
  split_ifs with g1 g2 g3 g4 g5
  · exact iff_of_false (by norm_num) (by
      rintro ⟨h1, h2, h3, h4, h5, h6⟩
      rcases g1 with h | h | h
      · exact h h1
      · linarith
      · linarith)
  · obtain ⟨a, b, c', d', e', f'⟩ := g2
    exact iff_of_true (by norm_num) ⟨f', e', a, b, c', d'⟩
  · exact iff_of_false (by norm_num) (by
      rintro ⟨h1, h2, h3, h4, h5, h6⟩
      exact g2 ⟨h3, h4, h5, h6, h2, h1⟩)
  · exact iff_of_false (by norm_num) (by
      rintro ⟨h1, h2, h3, h4, h5, h6⟩
      exact g2 ⟨h3, h4, h5, h6, h2, h1⟩)
  · exact iff_of_false (by norm_num) (by
      rintro ⟨h1, h2, h3, h4, h5, h6⟩
      exact g2 ⟨h3, h4, h5, h6, h2, h1⟩)
  · exact iff_of_false (by norm_num) (by
      rintro ⟨h1, h2, h3, h4, h5, h6⟩
      exact g2 ⟨h3, h4, h5, h6, h2, h1⟩)

/-- C4: for two classifier inputs agreeing on the SPEC score, the inferred
ratio, the hallucination-flag list and the absence boolean, raising
effective EVID and HCI can only move the assigned tier up the ordering
HK-INSTITUTIONAL > HK-PRO > HK-VERIFIED > HK-REVIEWED > HK-REJECTED. -/
theorem certification_monotone (d1 d2 : Dims) (e1 hci1 e2 hci2 ratio : ℚ)
    (hf : List String) (ab : Bool)
    (hspec : d1.SPEC.score = d2.SPEC.score) (he : e1 ≤ e2) (hh : hci1 ≤ hci2) :
    tierRank (determine_certification_level d1 e1 hci1 ratio hf ab).1
      ≤ tierRank (determine_certification_level d2 e2 hci2 ratio hf ab).1 := by
  have m1 : 1 ≤ tierRank (determine_certification_level d1 e1 hci1 ratio hf ab).1 →
      1 ≤ tierRank (determine_certification_level d2 e2 hci2 ratio hf ab).1 := by
    intro h
    obtain ⟨a, b, c'⟩ := (cert_rank_ge_one_iff d1 e1 hci1 ratio hf ab).mp h
    exact (cert_rank_ge_one_iff d2 e2 hci2 ratio hf ab).mpr ⟨a, by linarith, by linarith⟩
  have m2 : 2 ≤ tierRank (determine_certification_level d1 e1 hci1 ratio hf ab).1 →
      2 ≤ tierRank (determine_certification_level d2 e2 hci2 ratio hf ab).1 := by
    intro h
    obtain ⟨a, b, c', d', e', f'⟩ := (cert_rank_ge_two_iff d1 e1 hci1 ratio hf ab).mp h
    exact (cert_rank_ge_two_iff d2 e2 hci2 ratio hf ab).mpr
      ⟨a, b, by linarith, by linarith, e', by linarith⟩
  have m3 : 3 ≤ tierRank (determine_certification_level d1 e1 hci1 ratio hf ab).1 →
      3 ≤ tierRank (determine_certification_level d2 e2 hci2 ratio hf ab).1 := by
    intro h
    obtain ⟨a, b, c', d', e', f'⟩ := (cert_rank_ge_three_iff d1 e1 hci1 ratio hf ab).mp h
    exact (cert_rank_ge_three_iff d2 e2 hci2 ratio hf ab).mpr
      ⟨a, b, by linarith, by linarith, e', by linarith⟩
  have m4 : 4 ≤ tierRank (determine_certification_level d1 e1 hci1 ratio hf ab).1 →
      4 ≤ tierRank (determine_certification_level d2 e2 hci2 ratio hf ab).1 := by
    intro h
    obtain ⟨a, b, c', d', e', f'⟩ := (cert_rank_ge_four_iff d1 e1 hci1 ratio hf ab).mp h
    exact (cert_rank_ge_four_iff d2 e2 hci2 ratio hf ab).mpr
      ⟨a, b, by linarith, by linarith, e', by linarith⟩
  have hb : tierRank (determine_certification_level d1 e1 hci1 ratio hf ab).1 ≤ 4 :=
    tierRank_le_four _
  by_cases c4 : 4 ≤ tierRank (determine_certification_level d1 e1 hci1 ratio hf ab).1
  · have := m4 c4; omega
  by_cases c3 : 3 ≤ tierRank (determine_certification_level d1 e1 hci1 ratio hf ab).1
  · have := m3 c3; omega
  by_cases c2 : 2 ≤ tierRank (determine_certification_level d1 e1 hci1 ratio hf ab).1
  · have := m2 c2; omega
  by_cases c1 : 1 ≤ tierRank (determine_certification_level d1 e1 hci1 ratio hf ab).1
  · have := m1 c1; omega
  omega

/-- C4 witness: raising effective EVID from 6.5 to 9 and HCI from 6.5 to 9
(SPEC 7, ratio 1/2, no flags) does not lower the tier. -/
theorem certification_monotone_witness :
    ((6.5:ℚ) ≤ 9) ∧ ((6.5:ℚ) ≤ 9) ∧
    tierRank (determine_certification_level
        ⟨⟨7, ""⟩, ⟨7, ""⟩, ⟨7, ""⟩, ⟨7, ""⟩, ⟨7, ""⟩⟩ 6.5 6.5 (1/2) [] false).1
      ≤ tierRank (determine_certification_level
        ⟨⟨7, ""⟩, ⟨7, ""⟩, ⟨7, ""⟩, ⟨7, ""⟩, ⟨7, ""⟩⟩ 9 9 (1/2) [] false).1 :=
  ⟨by norm_num, by norm_num,
   certification_monotone _ _ _ _ _ _ _ _ _ rfl (by norm_num) (by norm_num)⟩

/-! ## C9 -/

/-- C9: the HK-REVIEWED gate's effective-EVID condition is dead code —
deleting it yields an extensionally equal classifier — and any input that
passes the HK-REJECTED gate with composite index in [5.5, 6.0) falls through
every named gate to the terminal default HK-REJECTED. -/
theorem reviewed_gate_redundant (d : Dims) (e hci ratio : ℚ) (hf : List String) (ab : Bool) :
    determine_certification_level d e hci ratio hf ab
      = determine_certification_level_simplified d e hci ratio hf ab
    ∧ (hf = [] → 6.0 ≤ e → 5.5 ≤ hci → hci < 6.0 →
        determine_certification_level d e hci ratio hf ab = ("HK-REJECTED", [])) := by
  constructor
  · unfold determine_certification_level determine_certification_level_simplified
    by_cases g1 : hf ≠ [] ∨ e < 6.0 ∨ hci < 5.5
    · rw [if_pos g1, if_pos g1]
    · rw [if_neg g1, if_neg g1]
      push_neg at g1
      have hiff : (hci ≥ 6.0 ∧ e ≥ 6.0) ↔ (hci ≥ 6.0) :=
        ⟨fun h => h.1, fun h => ⟨h, g1.2.1⟩⟩
      simp only [hiff]
  · intro h1 h2 h3 h4
    unfold determine_certification_level
    rw [if_neg (by push_neg; exact ⟨h1, h2, h3⟩ :
          ¬(hf ≠ [] ∨ e < 6.0 ∨ hci < 5.5))]
    rw [if_neg (fun hc => absurd hc.1 (by linarith) :
          ¬(hci ≥ 8.5 ∧ e ≥ 8.2 ∧ ratio ≤ 0.40 ∧ d.SPEC.score ≥ 7.5 ∧ ab = false ∧ hf = []))]
    rw [if_neg (fun hc => absurd hc.1 (by linarith) :
          ¬(hci ≥ 7.8 ∧ e ≥ 7.6 ∧ ratio ≤ 0.50 ∧ d.SPEC.score ≥ 7.0 ∧ ab = false))]
    rw [if_neg (fun hc => absurd hc.1 (by linarith) :
          ¬(hci ≥ 7.3 ∧ e ≥ 7.2 ∧ ratio ≤ 0.60 ∧ d.SPEC.score ≥ 6.5 ∧ ab = false))]
    rw [if_neg (fun hc => absurd hc.1 (by linarith) : ¬(hci ≥ 6.0 ∧ e ≥ 6.0))]

/-- C9 witness: effective EVID 7 and HCI 5.7 pass the HK-REJECTED gate but
fall through to the terminal default. -/
theorem reviewed_gate_redundant_witness :
    determine_certification_level ⟨⟨7, ""⟩, ⟨7, ""⟩, ⟨7, ""⟩, ⟨7, ""⟩, ⟨7, ""⟩⟩
      7 5.7 (1/2) [] false = ("HK-REJECTED", []) :=
  (reviewed_gate_redundant _ 7 5.7 (1/2) [] false).2 rfl (by norm_num) (by norm_num)
    (by norm_num)

/-! ## C10 -/

theorem assign_claim_ids_isSome (claims : List ClaimRec) :
    ∀ (i : ℕ) (c : ClaimRec), c ∈ assign_claim_ids i claims → c.claim_id.isSome := by
  induction claims with
  | nil => intro i c h; cases h
  | cons a rest ih =>
    intro i c h
    simp only [assign_claim_ids, List.mem_cons] at h
    rcases h with h | h
    · subst h
      by_cases ha : a.claim_id = none
      · simp [ha]
      · rw [if_neg ha]
        simpa [Option.isSome_iff_ne_none] using ha
    · exact ih (i + 1) c h

theorem assign_claim_ids_preserves (claims : List ClaimRec) : ∀ i : ℕ,
    (assign_claim_ids i claims).map
        (fun c => (c.text, c.evidence_type, c.source, c.source_url,
                   c.confidence, c.claim_flags, c.notes))
      = claims.map
        (fun c => (c.text, c.evidence_type, c.source, c.source_url,
                   c.confidence, c.claim_flags, c.notes)) := by
  induction claims with
  | nil => intro i; rfl
  | cons c rest ih =>
    intro i
    simp only [assign_claim_ids, List.map_cons, ih]
    by_cases h : c.claim_id = none
    · rw [if_pos h]
    · rw [if_neg h]

theorem build_evidence_entries_flags_map (ids : List String) (now : String) :
    ∀ (claims : List ClaimRec) (i : ℕ), (∀ c ∈ claims, c.claim_id.isSome) →
      (build_evidence_entries ids now i claims).map (fun e => e.claim_flags)
        = claims.map (fun c => c.claim_flags
            ++ (if c.claim_id.getD "" ∈ ids then ["ABSENCE_ASSERTION"] else [])) := by
  intro claims
  induction claims with
  | nil => intro i _; rfl
  | cons c rest ih =>
    intro i hall
    obtain ⟨v, hv⟩ := Option.isSome_iff_exists.mp (hall c (by simp))
    simp only [build_evidence_entries, List.map_cons]
    rw [ih (i + 1) (fun c' hc' => hall c' (by simp [hc']))]
    simp [hv]

/-- C10: claims are immutable once loaded. The normalizer's claim-id
assignment is the only write to a claim record and touches no other field;
the evidence builder leaves the claims list unchanged (modelled by explicit
state passing, matching the Python function which only reads claim dicts)
and appends the derived ABSENCE_ASSERTION flag only to the output entry's
copied flag list, never to the claim record itself. -/
theorem claims_immutable (report_id : String) (rawClaims : List ClaimRec)
    (absence_flag_ids : List String) (inferred_ratio : ℚ) (now : String) :
    ((assign_claim_ids 1 rawClaims).map
        (fun c => (c.text, c.evidence_type, c.source, c.source_url,
                   c.confidence, c.claim_flags, c.notes))
      = rawClaims.map
        (fun c => (c.text, c.evidence_type, c.source, c.source_url,
                   c.confidence, c.claim_flags, c.notes)))
    ∧ (build_evidence_json report_id (assign_claim_ids 1 rawClaims)
        absence_flag_ids inferred_ratio now).2 = assign_claim_ids 1 rawClaims
    ∧ (build_evidence_json report_id (assign_claim_ids 1 rawClaims)
          absence_flag_ids inferred_ratio now).1.entries.map (fun e => e.claim_flags)
        = (assign_claim_ids 1 rawClaims).map (fun c => c.claim_flags
            ++ (if c.claim_id.getD "" ∈ absence_flag_ids then ["ABSENCE_ASSERTION"] else [])) := by
  refine ⟨assign_claim_ids_preserves rawClaims 1, rfl, ?_⟩
  exact build_evidence_entries_flags_map absence_flag_ids now (assign_claim_ids 1 rawClaims) 1
    (assign_claim_ids_isSome rawClaims 1)

end HumanKlu
